import Mathlib

set_option maxRecDepth 100000
set_option maxHeartbeats 10000000

/-!
Shallow embedding of `src/add-debug-to-extractors.py`.

The script reads one hardcoded file, applies six sequential `re.sub`
passes to its content, writes the result back to the same path, and
prints two fixed status messages.

The regex features actually used by the six patterns are: literal
characters (with escapes), the lazy wildcard `.*?` under `re.DOTALL`
(so `.` matches any character, newlines included), the greedy
whitespace class `\s+`, and one capture group per pattern whose text
is re-inserted by the `\1` template reference.  The engine below
implements exactly those constructs with Python's backtracking
preference order (leftmost match; lazy quantifiers try fewer
characters first, greedy ones more characters first), and `reSub`
implements `re.sub`'s scan: replace each non-overlapping match from
left to right, resuming after the end of each match.
-/

/-- Tokens of the regex dialect used by the script's six patterns. -/
inductive RTok where
  | lit : List Char → RTok
  | anyLazy : RTok
  | wsPlus : RTok
  | mark : RTok
deriving Repr

/-- Python's `\s` on the ASCII range: space, tab, newline, carriage
return, vertical tab, form feed. -/
def isWsChar (c : Char) : Bool :=
  c = ' ' || c = '\t' || c = '\n' || c = '\r' || c = '\x0b' || c = '\x0c'

/-- Consume a literal from the front of the text; return the rest. -/
def dropLit : List Char → List Char → Option (List Char)
  | [], cs => some cs
  | _ :: _, [] => none
  | p :: ps, c :: cs => if p = c then dropLit ps cs else none

/--
Backtracking matcher in Python's preference order, by structural
recursion on a fuel counter.  `p` is the count of characters consumed
so far, `m` the recorded position of the capture-group end marker.
Returns the total consumed length and the marker position of the
first (preferred) match of the token list against a prefix of `cs`,
or `none`.  Every recursive call strictly decreases the measure
`2 * cs.length + ts.length`, so any fuel above that measure makes the
out-of-fuel branch unreachable; `reMatch` supplies such fuel.
-/
def reMatchF : Nat → List RTok → List Char → Nat → Option Nat → Option (Nat × Option Nat)
  | 0, _, _, _, _ => none
  | _ + 1, [], _, p, m => some (p, m)
  | fuel + 1, RTok.lit s :: ts, cs, p, m =>
    match dropLit s cs with
    | some cs' => reMatchF fuel ts cs' (p + s.length) m
    | none => none
  | fuel + 1, RTok.mark :: ts, cs, p, _ => reMatchF fuel ts cs p (some p)
  | fuel + 1, RTok.anyLazy :: ts, cs, p, m =>
    match reMatchF fuel ts cs p m with
    | some r => some r
    | none =>
      match cs with
      | [] => none
      | _ :: cs' => reMatchF fuel (RTok.anyLazy :: ts) cs' (p + 1) m
  | fuel + 1, RTok.wsPlus :: ts, cs, p, m =>
    match cs with
    | [] => none
    | c :: cs' =>
      if isWsChar c then
        match reMatchF fuel (RTok.wsPlus :: ts) cs' (p + 1) m with
        | some r => some r
        | none => reMatchF fuel ts cs' (p + 1) m
      else none

/-- The matcher with enough fuel for its measure. -/
def reMatch (ts : List RTok) (cs : List Char) (p : Nat) (m : Option Nat) :
    Option (Nat × Option Nat) :=
  reMatchF (2 * cs.length + ts.length + 1) ts cs p m

/-- One `re.sub` pass: a pattern (token list) and a replacement
template, given as a function of the capture group's text (`\1`). -/
structure SubPass where
  toks : List RTok
  repl : List Char → List Char

/-- Try the pass's pattern at the start of `cs`; on success return the
match length and the text of the capture group (from the match start
to the recorded marker). -/
def tryMatch (p : SubPass) (cs : List Char) : Option (Nat × List Char) :=
  match reMatch p.toks cs 0 none with
  | some (len, m) => some (len, cs.take (m.getD 0))
  | none => none

/-- `re.sub` with a global pattern: scan left to right, replace each
non-overlapping match, resume after the end of each match.  An empty
match inserts the replacement and copies the next character.
Structural recursion on fuel; every recursive call strictly shrinks
the text, so any fuel above `cs.length` makes the out-of-fuel branch
unreachable, and `reSub` supplies such fuel. -/
def reSubF : Nat → SubPass → List Char → List Char
  | 0, _, _ => []
  | _ + 1, p, [] =>
    match tryMatch p [] with
    | some (_, g1) => p.repl g1
    | none => []
  | fuel + 1, p, c :: cs =>
    match tryMatch p (c :: cs) with
    | none => c :: reSubF fuel p cs
    | some (len, g1) =>
      if len = 0 then p.repl g1 ++ c :: reSubF fuel p cs
      else p.repl g1 ++ reSubF fuel p (List.drop (len - 1) cs)

/-- The scanner with enough fuel for the whole text. -/
def reSub (p : SubPass) (cs : List Char) : List Char :=
  reSubF (cs.length + 1) p cs

/-- Position, length and capture-group text of the leftmost match of
the pass's pattern in the text, if any. -/
def firstMatch (p : SubPass) : List Char → Option (Nat × Nat × List Char)
  | [] =>
    match tryMatch p [] with
    | some (len, g1) => some (0, len, g1)
    | none => none
  | c :: cs =>
    match tryMatch p (c :: cs) with
    | some (len, g1) => some (0, len, g1)
    | none => (firstMatch p cs).map (fun r => (r.1 + 1, r.2))

/-- Whether the pass's pattern matches anywhere in the text. -/
def hasMatch (p : SubPass) (cs : List Char) : Bool :=
  (firstMatch p cs).isSome

/-- Whether `sub` occurs as a contiguous substring of `cs`. -/
def containsSub : List Char → List Char → Bool
  | cs, sub =>
    if (dropLit sub cs).isSome then true
    else
      match cs with
      | [] => false
      | _ :: cs' => containsSub cs' sub

/-!
The six `re.sub` calls of the script, in source order.  Literal
pattern text is transcribed from the raw regex strings (regex escapes
`\(`, `\)`, `\|`, `\{`, `\$`, `\n` resolved to the characters they
denote); `.*?` becomes `RTok.anyLazy` (the passes that use it set
`re.DOTALL`), `\s+` becomes `RTok.wsPlus`, and the end of the capture
group becomes `RTok.mark` (every group starts at the match start).
-/

/-- Pattern of pass 1: the old `extractGoldPrice` signature line. -/
def sigOld : String := "function extractGoldPrice(text: string): number | null \x7b"

/-- Replacement of pass 1: the new structured signature line. -/
def sigNew : String := "function extractGoldPrice(text: string): \x7b price: number | null; method: string \x7d \x7b"

/-- Shared literal of passes 2-5: the gold range check line. -/
def ifCond : String := "if (price >= 2000 && price <= 5000) \x7b"

/-- Shared literal of passes 2-5: the bare return being rewritten. -/
def retPrice : String := "return price;"

/-- Comment literal opening the pattern of pass 2. -/
def comment1 : String := "// Pattern 1: Look for 4-digit price in gold range with $ symbol"

/-- Comment literal opening the pattern of pass 3. -/
def comment2 : String := "// Pattern 2: Look for 4-digit number in gold range"

/-- Comment literal opening the pattern of pass 4. -/
def comment3 : String := "// Pattern 3: Look for \"gold\" followed by 4-digit price"

/-- Comment literal opening the pattern of pass 5. -/
def comment4 : String := "// Pattern 4: Look for price before \"gold\""

/-- Replacement snippet inserted after the group by pass 2. -/
def snippet1 : String := "return \x7b price, method: \x27gold_dollar_pattern\x27 \x7d;"

/-- Replacement snippet inserted after the group by pass 3. -/
def snippet2 : String := "return \x7b price, method: \x27gold_four_digit_pattern\x27 \x7d;"

/-- Replacement snippet inserted after the group by pass 4. -/
def snippet3 : String := "return \x7b price, method: \x27gold_keyword_after\x27 \x7d;"

/-- Replacement snippet inserted after the group by pass 5. -/
def snippet4 : String := "return \x7b price, method: \x27gold_keyword_before\x27 \x7d;"

/-- Literal opening the pattern of pass 6. -/
def funcHead : String := "function extractGoldPrice"

/-- Literal closing the pattern of pass 6: `return null;` then the
closing brace on the next line. -/
def retNull : String := "return null;\n\x7d"

/-- The final structured return inserted by pass 6. -/
def snippetFinal : String := "return \x7b price: null, method: \x27no_pattern_matched\x27 \x7d;"

/-- Text appended after the group by pass 6's template. -/
def finalTail : String := "\n  " ++ snippetFinal ++ "\n\x7d"

/-- Pass 1 (source line 14): rewrite the function signature. -/
def sigPass : SubPass :=
  ⟨[RTok.lit sigOld.data], fun _ => sigNew.data⟩

/-- Pass 2 (source line 21): rewrite the return of gold pattern 1. -/
def gold1Pass : SubPass :=
  ⟨[RTok.lit comment1.data, RTok.anyLazy, RTok.lit ifCond.data,
    RTok.wsPlus, RTok.mark, RTok.lit retPrice.data],
   fun g => g ++ snippet1.data⟩

/-- Pass 3 (source line 29): rewrite the return of gold pattern 2. -/
def gold2Pass : SubPass :=
  ⟨[RTok.lit comment2.data, RTok.anyLazy, RTok.lit ifCond.data,
    RTok.wsPlus, RTok.mark, RTok.lit retPrice.data],
   fun g => g ++ snippet2.data⟩

/-- Pass 4 (source line 37): rewrite the return of gold pattern 3. -/
def gold3Pass : SubPass :=
  ⟨[RTok.lit comment3.data, RTok.anyLazy, RTok.lit ifCond.data,
    RTok.wsPlus, RTok.mark, RTok.lit retPrice.data],
   fun g => g ++ snippet3.data⟩

/-- Pass 5 (source line 45): rewrite the return of gold pattern 4. -/
def gold4Pass : SubPass :=
  ⟨[RTok.lit comment4.data, RTok.anyLazy, RTok.lit ifCond.data,
    RTok.wsPlus, RTok.mark, RTok.lit retPrice.data],
   fun g => g ++ snippet4.data⟩

/-- Pass 6 (source line 53): rewrite the final `return null;`. -/
def finalPass : SubPass :=
  ⟨[RTok.lit funcHead.data, RTok.anyLazy, RTok.mark,
    RTok.wsPlus, RTok.lit retNull.data],
   fun g => g ++ finalTail.data⟩

/-- The six passes in the order the script applies them. -/
def passes : List SubPass :=
  [sigPass, gold1Pass, gold2Pass, gold3Pass, gold4Pass, finalPass]

/-- The whole in-memory transformation: the six `re.sub` passes
applied in sequence, each to the output of the previous one. -/
def transform (t : List Char) : List Char :=
  reSub finalPass
    (reSub gold4Pass
      (reSub gold3Pass
        (reSub gold2Pass
          (reSub gold1Pass
            (reSub sigPass t)))))

/-- `transform` on `String`s. -/
def transformStr (s : String) : String :=
  String.mk (transform s.data)

/-- Path opened for reading at source line 10. -/
def readPath : String := "/home/ubuntu/bayarea-dashboard/api/market.ts"

/-- Path opened for writing at source line 63. -/
def writePath : String := "/home/ubuntu/bayarea-dashboard/api/market.ts"

/-- Status message printed at source line 60 (before the write). -/
def msgUpdated : String := "✅ Updated extractGoldPrice function"

/-- Status message printed at source line 66 (after the write). -/
def msgAll : String := "✅ All extraction functions updated with debug support"

/-- Observable outcome of one run of the script: the resulting file
system, the console lines printed, and whether the run aborted with
an unhandled error. -/
structure RunResult where
  fs : String → Option String
  console : List String
  crashed : Bool

/-- One run of the script against a file system (a map from paths to
file contents).  A missing input file makes the `open` at line 10
raise, so the run crashes before printing or writing anything;
otherwise the transformed content is written back and both status
messages are printed. -/
def runScript (fs : String → Option String) : RunResult :=
  match fs readPath with
  | none => ⟨fs, [], true⟩
  | some content =>
    ⟨fun q => if q = writePath then some (transformStr content) else fs q,
     [msgUpdated, msgAll], false⟩

/-- The script's entry point ignores its command line and
environment: it mentions neither `sys.argv` nor `os.environ`. -/
def runMain (_argv : List String) (_env : String → Option String)
    (fs : String → Option String) : RunResult :=
  runScript fs

/-!
Concrete texts used by the claims: a canonical input containing all
six patterns (signature, the four comment-delimited gold blocks, and
the final `return null;`), and variants missing one piece.
-/

/-- One comment-delimited gold block of the expected input. -/
def goldBlock : String :=
  "  if (price >= 2000 && price <= 5000) \x7b\n    return price;\n  \x7d\n"

/-- The same block after its return was rewritten to `snippet`. -/
def goldBlockOut (snippet : String) : String :=
  "  if (price >= 2000 && price <= 5000) \x7b\n    " ++ snippet ++ "\n  \x7d\n"

/-- Canonical expected input: all six patterns present. -/
def canonicalInput : String :=
  sigOld ++ "\n  " ++ comment1 ++ "\n" ++ goldBlock
  ++ "  " ++ comment2 ++ "\n" ++ goldBlock
  ++ "  " ++ comment3 ++ "\n" ++ goldBlock
  ++ "  " ++ comment4 ++ "\n" ++ goldBlock
  ++ "  return null;\n\x7d"

/-- The text the script produces from `canonicalInput`. -/
def canonicalOutput : String :=
  sigNew ++ "\n  " ++ comment1 ++ "\n" ++ goldBlockOut snippet1
  ++ "  " ++ comment2 ++ "\n" ++ goldBlockOut snippet2
  ++ "  " ++ comment3 ++ "\n" ++ goldBlockOut snippet3
  ++ "  " ++ comment4 ++ "\n" ++ goldBlockOut snippet4
  ++ "  " ++ snippetFinal ++ "\n\x7d"

/-- Input containing the signature and the four gold blocks but no
final `return null;` site. -/
def inputNoFinal : String :=
  sigOld ++ "\n  " ++ comment1 ++ "\n" ++ goldBlock
  ++ "  " ++ comment2 ++ "\n" ++ goldBlock
  ++ "  " ++ comment3 ++ "\n" ++ goldBlock
  ++ "  " ++ comment4 ++ "\n" ++ goldBlock
  ++ "\x7d"

/-- Canonical input with the second gold comment replaced, so the
pattern of pass 3 does not match anywhere. -/
def inputMissing2 : String :=
  sigOld ++ "\n  " ++ comment1 ++ "\n" ++ goldBlock
  ++ "  // no second pattern here\n" ++ goldBlock
  ++ "  " ++ comment3 ++ "\n" ++ goldBlock
  ++ "  " ++ comment4 ++ "\n" ++ goldBlock
  ++ "  return null;\n\x7d"

/-- The text the script produces from `inputMissing2`: the second
block is left byte-for-byte unchanged, everything else that matches
is rewritten, including the final `return null;`. -/
def outputMissing2 : String :=
  sigNew ++ "\n  " ++ comment1 ++ "\n" ++ goldBlockOut snippet1
  ++ "  // no second pattern here\n" ++ goldBlock
  ++ "  " ++ comment3 ++ "\n" ++ goldBlockOut snippet3
  ++ "  " ++ comment4 ++ "\n" ++ goldBlockOut snippet4
  ++ "  " ++ snippetFinal ++ "\n\x7d"

/-- The bare final return statement of the input. -/
def retNullStmt : String := "return null;"

/-- The second block of `inputMissing2`, whose comment does not open
any pattern: the run leaves it byte-for-byte unchanged. -/
def missing2Block : String := "  // no second pattern here\n" ++ goldBlock

/-- A text in which the pattern of pass 1 occurs twice. -/
def twoSigs : String := sigOld ++ "\n" ++ sigOld

/-!
General lemmas about the engine, used by the claims about sequencing,
silent no-ops, and global replacement.
-/

/-- On empty text the matcher can only consume zero characters, with
any amount of fuel. -/
theorem reMatchF_nil_end : ∀ (fuel : Nat) (ts : List RTok) (p : Nat) (m : Option Nat)
    (r : Nat × Option Nat), reMatchF fuel ts [] p m = some r → r.1 = p := by
  intro fuel
  induction fuel with
  | zero => intro ts p m r h; simp [reMatchF] at h
  | succ fuel ih =>
    intro ts p m r h
    cases ts with
    | nil =>
      simp only [reMatchF, Option.some.injEq] at h
      rw [← h]
    | cons t ts =>
      cases t with
      | lit s =>
        cases s with
        | nil =>
          simp only [reMatchF, dropLit, List.length_nil, Nat.add_zero] at h
          exact ih ts p m r h
        | cons a as => simp [reMatchF, dropLit] at h
      | mark =>
        simp only [reMatchF] at h
        exact ih ts p (some p) r h
      | anyLazy =>
        simp only [reMatchF] at h
        cases hin : reMatchF fuel ts [] p m with
        | some r' =>
          rw [hin] at h
          simp only [Option.some.injEq] at h
          exact h ▸ ih ts p m r' hin
        | none => rw [hin] at h; simp at h
      | wsPlus => simp [reMatchF] at h

/-- The scanner's result does not depend on the fuel, as long as the
fuel exceeds the length of the text. -/
theorem reSubF_congr : ∀ (f₁ f₂ : Nat) (p : SubPass) (cs : List Char),
    cs.length < f₁ → cs.length < f₂ → reSubF f₁ p cs = reSubF f₂ p cs := by
  intro f₁
  induction f₁ with
  | zero => intro f₂ p cs h₁ h₂; exact absurd h₁ (Nat.not_lt_zero _)
  | succ f₁ ih =>
    intro f₂ p cs h₁ h₂
    cases f₂ with
    | zero => exact absurd h₂ (Nat.not_lt_zero _)
    | succ f₂ =>
      cases cs with
      | nil => simp [reSubF]
      | cons c cs =>
        simp only [List.length_cons, Nat.add_lt_add_iff_right] at h₁ h₂
        simp only [reSubF]
        cases htm : tryMatch p (c :: cs) with
        | none => rw [ih f₂ p cs h₁ h₂]
        | some r =>
          obtain ⟨len, g1⟩ := r
          dsimp only
          by_cases hl : len = 0
          · rw [if_pos hl, if_pos hl, ih f₂ p cs h₁ h₂]
          · rw [if_neg hl, if_neg hl,
              ih f₂ p (List.drop (len - 1) cs)
                (by rw [List.length_drop]; omega)
                (by rw [List.length_drop]; omega)]

/-- Unfolding `reSub` at a position where the pattern does not match:
the character is copied and the scan moves on. -/
theorem reSub_cons_none (p : SubPass) (c : Char) (cs : List Char)
    (h : tryMatch p (c :: cs) = none) : reSub p (c :: cs) = c :: reSub p cs := by
  unfold reSub
  simp only [List.length_cons, reSubF, h]

/-- Unfolding `reSub` at a position where the pattern matches a
nonempty span: the whole match is replaced by the template applied to
the capture group, and the scan resumes after the match. -/
theorem reSub_cons_pos (p : SubPass) (c : Char) (cs : List Char) (len : Nat) (g1 : List Char)
    (h : tryMatch p (c :: cs) = some (len, g1)) (hlen : len ≠ 0) :
    reSub p (c :: cs) = p.repl g1 ++ reSub p (List.drop (len - 1) cs) := by
  unfold reSub
  simp only [List.length_cons, reSubF, h, if_neg hlen]
  refine congrArg _ (reSubF_congr _ _ p _ ?_ ?_)
  · rw [List.length_drop]; omega
  · omega

/-- A pass whose pattern matches nowhere in the text is a silent
no-op: the text comes back unchanged. -/
theorem reSub_no_match (p : SubPass) : ∀ (t : List Char),
    hasMatch p t = false → reSub p t = t := by
  intro t
  induction t with
  | nil =>
    intro h
    simp only [hasMatch, firstMatch] at h
    cases htm : tryMatch p [] with
    | some r => rw [htm] at h; simp at h
    | none => unfold reSub; simp [reSubF, htm]
  | cons c cs ih =>
    intro h
    simp only [hasMatch, firstMatch] at h
    cases htm : tryMatch p (c :: cs) with
    | some r => rw [htm] at h; simp at h
    | none =>
      rw [htm] at h
      rw [reSub_cons_none p c cs htm]
      cases hfm : firstMatch p cs with
      | some r => rw [hfm] at h; simp at h
      | none =>
        rw [ih (by rw [hasMatch, hfm]; rfl)]

/-- A successful `tryMatch` on empty text has length zero. -/
theorem tryMatch_nil_len (p : SubPass) (len : Nat) (g1 : List Char)
    (h : tryMatch p [] = some (len, g1)) : len = 0 := by
  simp only [tryMatch] at h
  cases hrm : reMatch p.toks [] 0 none with
  | none => rw [hrm] at h; simp at h
  | some q =>
    rw [hrm] at h
    simp only [Option.some.injEq, Prod.mk.injEq] at h
    have := reMatchF_nil_end _ _ _ _ q hrm
    omega

/-- Decomposition of the scan at its leftmost match: the text before
the match is copied, the match is replaced, and the scan continues
recursively on everything after the match, so later occurrences are
replaced as well. -/
theorem reSub_leftmost (p : SubPass) :
    ∀ (t : List Char) (i len : Nat) (g1 : List Char), 0 < len →
    firstMatch p t = some (i, len, g1) →
    reSub p t = t.take i ++ p.repl g1 ++ reSub p (t.drop (i + len)) := by
  intro t
  induction t with
  | nil =>
    intro i len g1 hlen h
    simp only [firstMatch] at h
    cases htm : tryMatch p [] with
    | none => rw [htm] at h; simp at h
    | some r =>
      obtain ⟨len', g1'⟩ := r
      rw [htm] at h
      simp only [Option.some.injEq, Prod.mk.injEq] at h
      have hz := tryMatch_nil_len p len' g1' htm
      omega
  | cons c cs ih =>
    intro i len g1 hlen h
    simp only [firstMatch] at h
    cases htm : tryMatch p (c :: cs) with
    | some r =>
      obtain ⟨len', g1'⟩ := r
      rw [htm] at h
      simp only [Option.some.injEq, Prod.mk.injEq] at h
      obtain ⟨hi, hl, hg⟩ := h
      rw [← hi, ← hl, ← hg]
      rw [reSub_cons_pos p c cs len' g1' htm (by omega)]
      have hdrop : List.drop (0 + len') (c :: cs) = List.drop (len' - 1) cs := by
        rw [Nat.zero_add]
        cases len' with
        | zero => omega
        | succ k => simp [List.drop_succ_cons]
      rw [hdrop]
      simp
    | none =>
      rw [htm] at h
      rw [Option.map_eq_some'] at h
      obtain ⟨⟨i', len', g1'⟩, hfm, hfa⟩ := h
      simp only [Prod.mk.injEq] at hfa
      obtain ⟨hi, hl, hg⟩ := hfa
      rw [← hi, ← hl, ← hg]
      rw [reSub_cons_none p c cs htm, ih i' len' g1' (by omega) hfm]
      have h1 : List.take (i' + 1) (c :: cs) = c :: List.take i' cs := by
        simp [List.take_succ_cons]
      have h2 : List.drop (i' + 1 + len') (c :: cs) = List.drop (i' + len') cs := by
        rw [Nat.add_right_comm i' 1 len', List.drop_succ_cons]
      rw [h1, h2]
      simp

/-!
The claims.
-/

/-- C2: for every input text the replacement passes are applied
strictly in sequence, each pass operating on the output of the
previous pass, and any pass whose pattern does not match the current
text leaves the text unchanged — a silent no-op, with no error raised
and no match count checked. -/
theorem claim2_sequential_silent_noop (t : List Char) (p : SubPass)
    (h : hasMatch p t = false) :
    transform t
      = reSub finalPass (reSub gold4Pass (reSub gold3Pass (reSub gold2Pass
          (reSub gold1Pass (reSub sigPass t)))))
    ∧ reSub p t = t :=
  ⟨rfl, reSub_no_match p t h⟩

/-- Witness for C2: on a text matched by none of the patterns, a pass
really is an identity. -/
theorem claim2_witness :
    hasMatch sigPass (String.data ("let x = 0;")) = false
    ∧ reSub sigPass (String.data ("let x = 0;")) = String.data ("let x = 0;") :=
  ⟨by decide,
   (claim2_sequential_silent_noop (String.data ("let x = 0;")) sigPass (by decide)).2⟩

/-- C3 counterexample: the claim says the transformer applies exactly
five pattern-substitution passes, but the script performs six `re.sub`
calls (signature, four gold-pattern returns, final return). -/
theorem claim3_counterexample : ¬ passes.length = 5 := by decide

/-- C3 (amended): the transformer applies exactly six sequential
pattern-substitution passes between reading the file and writing it
back, and the pipeline is exactly the left fold of those six passes. -/
theorem claim3_six_passes :
    passes.length = 6
    ∧ ∀ t : List Char, transform t = passes.foldl (fun s q => reSub q s) t :=
  ⟨rfl, fun _ => rfl⟩

/-- C6: the two fixed success messages are emitted on every run that
reads the file, regardless of whether any substitution pass matched;
a run on a zero-match input prints exactly the same console output as
a fully successful run. -/
theorem claim6_unconditional_success_messages
    (fs : String → Option String) (c : String) (h : fs readPath = some c) :
    (runScript fs).console = [msgUpdated, msgAll]
    ∧ (runScript fs).crashed = false := by
  simp [runScript, h]

/-- Witness for C6: a file content matched by none of the six
patterns still yields both success messages. -/
theorem claim6_witness :
    hasMatch sigPass (String.data ("const x = 1;")) = false
    ∧ hasMatch gold1Pass (String.data ("const x = 1;")) = false
    ∧ hasMatch gold2Pass (String.data ("const x = 1;")) = false
    ∧ hasMatch gold3Pass (String.data ("const x = 1;")) = false
    ∧ hasMatch gold4Pass (String.data ("const x = 1;")) = false
    ∧ hasMatch finalPass (String.data ("const x = 1;")) = false
    ∧ (runScript (fun _ => some ("const x = 1;"))).console = [msgUpdated, msgAll] :=
  ⟨by decide, by decide, by decide, by decide, by decide, by decide,
   (claim6_unconditional_success_messages (fun _ => some ("const x = 1;"))
     ("const x = 1;") rfl).1⟩

/-- C7: if the input path is absent from the file system, the run
crashes at the read, before any write: the file system is left
unchanged and nothing is printed. -/
theorem claim7_missing_input_no_write
    (fs : String → Option String) (h : fs readPath = none) :
    (runScript fs).crashed = true
    ∧ (runScript fs).fs = fs
    ∧ (runScript fs).console = [] := by
  simp [runScript, h]

/-- Witness for C7: the empty file system. -/
theorem claim7_witness :
    ((fun _ : String => (none : Option String)) readPath = none)
    ∧ (runScript (fun _ : String => (none : Option String))).fs
        = (fun _ : String => (none : Option String)) :=
  ⟨rfl, (claim7_missing_input_no_write (fun _ => none) rfl).2.1⟩

/-- C8: the path read at line 10 and the path overwritten at line 63
are the same single hardcoded path, and the run is unaffected by the
command line and the environment. -/
theorem claim8_single_hardcoded_path :
    readPath = writePath
    ∧ ∀ (argv : List String) (env fs : String → Option String),
        runMain argv env fs = runScript fs :=
  ⟨rfl, fun _ _ _ => rfl⟩

/-- C9: each substitution pass replaces every non-overlapping
occurrence of its pattern, not only the first: at the leftmost match
the matched span is replaced and the scan continues recursively on
the entire remainder of the text, where further occurrences are
rewritten the same way. -/
theorem claim9_replaces_all_occurrences (p : SubPass) (t : List Char)
    (i len : Nat) (g1 : List Char) (hlen : 0 < len)
    (h : firstMatch p t = some (i, len, g1)) :
    reSub p t = t.take i ++ p.repl g1 ++ reSub p (t.drop (i + len)) :=
  reSub_leftmost p t i len g1 hlen h

/-- Witness for C9: on a text holding two occurrences of the
signature pattern, the decomposition holds and both occurrences are
rewritten. -/
theorem claim9_witness :
    0 < sigOld.length
    ∧ firstMatch sigPass twoSigs.data = some (0, sigOld.length, [])
    ∧ reSub sigPass twoSigs.data
        = twoSigs.data.take 0 ++ sigPass.repl []
            ++ reSub sigPass (twoSigs.data.drop (0 + sigOld.length))
    ∧ reSub sigPass twoSigs.data = (sigNew ++ "\n" ++ sigNew).data :=
  ⟨by decide, by decide,
   claim9_replaces_all_occurrences sigPass twoSigs.data 0 sigOld.length []
     (by decide) (by decide),
   by decide⟩

/-- C10: the transformer is deterministic — the written content and
console output are functions of the input file content alone: two
file systems holding equal content at the script's path yield equal
written content, console output and crash status. -/
theorem claim10_deterministic (fs₁ fs₂ : String → Option String)
    (h : fs₁ readPath = fs₂ readPath) :
    (runScript fs₁).fs writePath = (runScript fs₂).fs writePath
    ∧ (runScript fs₁).console = (runScript fs₂).console
    ∧ (runScript fs₁).crashed = (runScript fs₂).crashed := by
  cases hc : fs₁ readPath with
  | none =>
    have hc₂ : fs₂ readPath = none := by rw [← h, hc]
    refine ⟨?_, ?_, ?_⟩ <;> simp [runScript, hc, hc₂]
    show fs₁ writePath = fs₂ writePath
    have hrw : writePath = readPath := rfl
    rw [hrw]
    exact h
  | some c =>
    have hc₂ : fs₂ readPath = some c := by rw [← h, hc]
    refine ⟨?_, ?_, ?_⟩ <;> simp [runScript, hc, hc₂]

/-- Witness for C10: two distinct file systems agreeing at the
script's path produce the same written content. -/
theorem claim10_witness :
    ((fun q : String => if q = readPath then some canonicalInput else none) readPath
        = (fun _ : String => some canonicalInput) readPath)
    ∧ (runScript (fun q : String => if q = readPath then some canonicalInput else none)).fs
          writePath
        = (runScript (fun _ : String => some canonicalInput)).fs writePath :=
  ⟨by simp, (claim10_deterministic _ _ (by simp)).1⟩

/-- C1 counterexample: an input matched by all five patterns named by
the claim (the signature and the four comment-delimited gold return
sites) whose transformed output does not contain the final
`return (price: null, method: no_pattern_matched)` snippet: the final
rewrite needs the separate `return null;` site, which the claim's
hypothesis does not require. -/
theorem claim1_counterexample :
    hasMatch sigPass inputNoFinal.data = true
    ∧ hasMatch gold1Pass inputNoFinal.data = true
    ∧ hasMatch gold2Pass inputNoFinal.data = true
    ∧ hasMatch gold3Pass inputNoFinal.data = true
    ∧ hasMatch gold4Pass inputNoFinal.data = true
    ∧ containsSub (transform inputNoFinal.data) snippetFinal.data = false := by
  decide

/-- C1 (amended): for the fixed expected input containing all six
patterns, the transformer's output contains every replacement snippet
verbatim: the new structured signature, the four method-tagged
returns, and the final no_pattern_matched return. -/
theorem claim1_fixed_input_snippets :
    transformStr canonicalInput = canonicalOutput
    ∧ containsSub canonicalOutput.data sigNew.data = true
    ∧ containsSub canonicalOutput.data snippet1.data = true
    ∧ containsSub canonicalOutput.data snippet2.data = true
    ∧ containsSub canonicalOutput.data snippet3.data = true
    ∧ containsSub canonicalOutput.data snippet4.data = true
    ∧ containsSub canonicalOutput.data snippetFinal.data = true := by
  decide

/-- C4: a second run on the output of the first run changes nothing —
no pattern of any of the six passes matches the once-transformed
canonical text, the second transformation returns its input
unchanged, and the success messages are still printed. -/
theorem claim4_second_run_noop :
    transformStr canonicalInput = canonicalOutput
    ∧ transformStr canonicalOutput = canonicalOutput
    ∧ hasMatch sigPass canonicalOutput.data = false
    ∧ hasMatch gold1Pass canonicalOutput.data = false
    ∧ hasMatch gold2Pass canonicalOutput.data = false
    ∧ hasMatch gold3Pass canonicalOutput.data = false
    ∧ hasMatch gold4Pass canonicalOutput.data = false
    ∧ hasMatch finalPass canonicalOutput.data = false
    ∧ (runScript (fun q : String => if q = readPath then some canonicalOutput else none)).console
        = [msgUpdated, msgAll] := by
  decide

/-- C5 counterexample: an input matched by four of the five patterns
named by the claim (missing the second gold block) in which the
transformer nevertheless also changes text outside the four present
patterns' locations: the input contains `return null;`, which lies
outside all four sites, yet the output no longer contains it, because
the sixth substitution rewrote it. -/
theorem claim5_counterexample :
    hasMatch sigPass inputMissing2.data = true
    ∧ hasMatch gold1Pass inputMissing2.data = true
    ∧ hasMatch gold3Pass inputMissing2.data = true
    ∧ hasMatch gold4Pass inputMissing2.data = true
    ∧ hasMatch gold2Pass inputMissing2.data = false
    ∧ containsSub inputMissing2.data retNullStmt.data = true
    ∧ containsSub (transform inputMissing2.data) retNullStmt.data = false := by
  decide

/-- C5 (amended): for the fixed input missing one of the five listed
patterns, the output is the input with exactly the rewrites of the
patterns that match during the run applied — the other three gold
returns, the signature and the final return — while the missing
pattern's block, its bare `return price;` included, stays
byte-for-byte unchanged in place. -/
theorem claim5_fixed_input_frame :
    transformStr inputMissing2 = outputMissing2
    ∧ containsSub outputMissing2.data missing2Block.data = true
    ∧ containsSub outputMissing2.data retPrice.data = true := by
  decide
